import Mathlib

/-!
Shallow embedding of the IPAM / DNS reconciliation core of the
dataplane-operator repository (`pkg/deployment/ipam.go`), together with
theorems about its behaviour.

The embedding models the external Kubernetes client at its boundary: the
List / Get / CreateOrPatch calls the code performs are supplied as fields of
an environment record, each returning either an error or the resulting
object.  Each embedded function additionally returns a trace of the upserts
it performed, so that statements such as "no CreateOrPatch call is made" or
"no later node's resource is created" can be expressed.

Go `nil` slices are modelled as `Option` values (`none` = nil), because the
code distinguishes nil from non-nil (`dns.ClusterAddresses == nil`).
Go maps that are built in insertion order are modelled as association lists
with key-replacing insertion.
-/

namespace Ipam

/-- Result of an external call: either the resulting value or an error.
Errors are opaque values that are compared for identity only. -/
structure Err where
  msg : String
deriving DecidableEq

/-- Status of a status condition: True / False / Unknown
(mirrors `corev1.ConditionStatus` as used by lib-common conditions). -/
inductive CondStatus where
  | ctrue
  | cfalse
  | cunknown
deriving DecidableEq

/-- One status condition record, as attached to an object's status
(boundary model of `condition.Condition` from lib-common). -/
structure Cond where
  ctype : String
  status : CondStatus
  reason : String
  severity : String
  message : String
deriving DecidableEq

/-- Condition list lookup by type (boundary model of `Conditions.Get`). -/
def condGet (l : List Cond) (t : String) : Option Cond :=
  match l with
  | [] => none
  | c :: rest => if c.ctype == t then some c else condGet rest t

/-- Upsert-by-type, last write wins (boundary model of `Conditions.Set`):
replace the first condition with the same type, else append. -/
def condSet (l : List Cond) (c : Cond) : List Cond :=
  match l with
  | [] => [c]
  | x :: rest => if x.ctype == c.ctype then c :: rest else x :: condSet rest c

/-- Remove a condition by type (boundary model of `Conditions.Remove`). -/
def condRemove (l : List Cond) (t : String) : List Cond :=
  match l with
  | [] => []
  | c :: rest => if c.ctype == t then condRemove rest t else c :: condRemove rest t

/-- Boundary model of `Conditions.IsTrue`: a condition of this type exists
and its status is confirmed True. -/
def condIsTrue (l : List Cond) (t : String) : Bool :=
  match condGet l t with
  | some c => c.status == CondStatus.ctrue
  | none => false

/-- A condition is in the Waiting state: present, status False, reason
Requested (how `MarkFalse` with `condition.RequestedReason` leaves it). -/
def condIsWaiting (l : List Cond) (t : String) : Bool :=
  match condGet l t with
  | some c => c.status == CondStatus.cfalse && c.reason == "Requested"
  | none => false

/-- A condition is in the Error state: present, status False, reason Error
(how `MarkFalse` with `condition.ErrorReason` leaves it). -/
def condIsError (l : List Cond) (t : String) : Bool :=
  match condGet l t with
  | some c => c.status == CondStatus.cfalse && c.reason == "Error"
  | none => false

/-- Condition type `dataplanev1.NodeSetIPReservationReadyCondition`.
Modelled from the spec: the named reservation-readiness condition of the
parent object (its literal value lives in the api package, not in src). -/
def NodeSetIPReservationReadyCondition : String := "NodeSetIPReservationReady"

/-- Condition type `dataplanev1.NodeSetDNSDataReadyCondition`.
Modelled from the spec: the named DNS-data-readiness condition of the
parent object (its literal value lives in the api package, not in src). -/
def NodeSetDNSDataReadyCondition : String := "NodeSetDNSDataReady"

/-- Condition type `condition.ReadyCondition` of lib-common, carried by the
IPSet child resources. -/
def ReadyCondition : String := "Ready"

/-- Reason `condition.ErrorReason`. -/
def ErrorReason : String := "Error"

/-- Reason `condition.RequestedReason`. -/
def RequestedReason : String := "Requested"

/-- Severity `condition.SeverityError`. -/
def SeverityError : String := "Error"

/-- Severity `condition.SeverityInfo`. -/
def SeverityInfo : String := "Info"

/-- Message `dataplanev1.NodeSetIPReservationReadyMessage`.
Modelled from the spec: a human-readable message naming the taxonomy entry
(its literal value lives in the api package, not in src). -/
def NodeSetIPReservationReadyMessage : String := "IPReservation ready"

/-- Message `dataplanev1.NodeSetIPReservationReadyWaitingMessage`.
Modelled from the spec (see `NodeSetIPReservationReadyMessage`). -/
def NodeSetIPReservationReadyWaitingMessage : String := "IPReservation waiting"

/-- Message `dataplanev1.NodeSetIPReservationReadyErrorMessage`.
Modelled from the spec (see `NodeSetIPReservationReadyMessage`). -/
def NodeSetIPReservationReadyErrorMessage : String := "IPReservation error"

/-- Message `dataplanev1.NodeSetDNSDataReadyMessage`.
Modelled from the spec (see `NodeSetIPReservationReadyMessage`). -/
def NodeSetDNSDataReadyMessage : String := "DNSData ready"

/-- Message `dataplanev1.NodeSetDNSDataReadyWaitingMessage`.
Modelled from the spec (see `NodeSetIPReservationReadyMessage`). -/
def NodeSetDNSDataReadyWaitingMessage : String := "DNSData waiting"

/-- Message `dataplanev1.NodeSetDNSDataReadyErrorMessage`.
Modelled from the spec (see `NodeSetIPReservationReadyMessage`). -/
def NodeSetDNSDataReadyErrorMessage : String := "DNSData error"

/-- The designated control-plane network name, `CtlPlaneNetwork`.
Modelled from the spec: the constant is declared elsewhere in the
deployment package (not in src); the spec's examples use `ctlplane`. -/
def CtlPlaneNetwork : String := "ctlplane"

/-- One IP reservation of an IPSet status:
`infranetworkv1.IPSetReservation` `{Network, Address, DNSDomain}`. -/
structure Reservation where
  network : String
  address : String
  dnsDomain : String
deriving DecidableEq

/-- Status of an IPSet child resource: the reservation list plus its own
condition list (carrying the lib-common Ready condition). -/
structure IPSetStatus where
  reservation : List Reservation
  conditions : List Cond
deriving DecidableEq

/-- An IPSet child resource (`infranetworkv1.IPSet`): name, requested
networks (spec) and status. -/
structure IPSet where
  name : String
  networks : List String
  status : IPSetStatus
deriving DecidableEq

/-- A NetConfig resource; only its existence matters to this core. -/
structure NetConfig where
  name : String
deriving DecidableEq

/-- One node of the node set: `HostName` plus its own `Networks` override
list (empty list defers to the template). -/
structure NodeSpec where
  hostName : String
  networks : List String
deriving DecidableEq

/-- The node template carrying default networks.
Modelled from the spec: the api types are not in src; the spec describes a
NodeTemplate with default NetworkAttachments used when a node's list is
empty. -/
structure NodeTemplate where
  networks : List String
deriving DecidableEq

/-- The node-set spec: an ordered collection of nodes plus the template.
Modelled from the spec: "NodeSetSpec: ordered collection of NodeSpec plus a
NodeTemplate"; iteration over nodes follows this fixed order. -/
structure NodeSetSpec where
  nodes : List NodeSpec
  nodeTemplate : NodeTemplate
deriving DecidableEq

/-- The parent `OpenStackDataPlaneNodeSet` object: identity, spec and the
status condition list this core updates. -/
structure Instance where
  name : String
  nspace : String
  spec : NodeSetSpec
  conditions : List Cond
deriving DecidableEq

/-- `instance.Status.Conditions.MarkTrue(t, message)`. -/
def markTrueC (inst : Instance) (t message : String) : Instance :=
  { inst with conditions := condSet inst.conditions ⟨t, CondStatus.ctrue, "Ready", "", message⟩ }

/-- `instance.Status.Conditions.MarkFalse(t, reason, severity, message)`. -/
def markFalseC (inst : Instance) (t reason severity message : String) : Instance :=
  { inst with conditions := condSet inst.conditions ⟨t, CondStatus.cfalse, reason, severity, message⟩ }

/-- `instance.Status.Conditions.Remove(t)`. -/
def condRemoveI (inst : Instance) (t : String) : Instance :=
  { inst with conditions := condRemove inst.conditions t }

/-- Association-list lookup, modelling Go map indexing `m[k]`. -/
def alistLookup {α : Type} (l : List (String × α)) (k : String) : Option α :=
  match l with
  | [] => none
  | p :: rest => if p.1 == k then some p.2 else alistLookup rest k

/-- Association-list insertion with key replacement, modelling Go map
assignment `m[k] = v` (insertion order preserved for existing keys). -/
def alistInsert {α : Type} (l : List (String × α)) (k : String) (v : α) :
    List (String × α) :=
  match l with
  | [] => [(k, v)]
  | p :: rest => if p.1 == k then (k, v) :: rest else p :: alistInsert rest k v

/-- External-store boundary for the reservation pipeline: the List call on
NetConfigs and the CreateOrPatch upsert of one IPSet (given its name and
desired networks, returning the persisted object with its live status). -/
structure IpamEnv where
  listNetConfigs : Except Err (List NetConfig)
  upsertIPSet : String → List String → Except Err IPSet

/-- The attachments a node effectively requests: its own list when
non-empty, else the template default (`nets := node.Networks;
if len(nets) == 0 { nets = instance.Spec.NodeTemplate.Networks }`). -/
def effectiveNets (tmpl : List String) (n : NodeSpec) : List String :=
  if n.networks = [] then tmpl else n.networks

/-- The participating nodes: those whose effective attachment list is
non-empty. -/
def participants (tmpl : List String) (nodes : List NodeSpec) : List NodeSpec :=
  nodes.filter (fun n => !(effectiveNets tmpl n).isEmpty)

/-- Result of the per-node upsert loop of `reserveIPs`: the ordered trace of
host names whose IPSet was upserted, the `ipamUsed` flag, and the resulting
map (or the first error, fail-fast). -/
structure LoopRes where
  trace : List String
  used : Bool
  res : Except Err (List (String × IPSet))

/-- The per-node loop body of `reserveIPs` (ipam.go lines 251-279): for each
node in order, compute the effective networks; skip the node when empty;
otherwise upsert its IPSet and stop at the first error. -/
def reserveIPsLoop (env : IpamEnv) (tmpl : List String) :
    List NodeSpec → List (String × IPSet) → LoopRes
  | [], acc => ⟨[], false, Except.ok acc⟩
  | node :: rest, acc =>
    let nets := effectiveNets tmpl node
    if nets = [] then reserveIPsLoop env tmpl rest acc
    else
      match env.upsertIPSet node.hostName nets with
      | Except.error e => ⟨[node.hostName], true, Except.error e⟩
      | Except.ok ipSet =>
        let r := reserveIPsLoop env tmpl rest (alistInsert acc node.hostName ipSet)
        ⟨node.hostName :: r.trace, true, r.res⟩

/-- `reserveIPs` (ipam.go lines 230-286): list NetConfigs (error surfaces
unmodified; zero NetConfigs removes the reservation condition and skips
IPAM), then run the per-node upsert loop; when no node participated the
reservation condition is removed. -/
def reserveIPs (env : IpamEnv) (inst : Instance) :
    Instance × List String × Except Err (List (String × IPSet)) :=
  match env.listNetConfigs with
  | Except.error e => (inst, [], Except.error e)
  | Except.ok ncs =>
    if ncs.length = 0 then
      (condRemoveI inst NodeSetIPReservationReadyCondition, [], Except.ok [])
    else
      let r := reserveIPsLoop env inst.spec.nodeTemplate.networks inst.spec.nodes []
      match r.res with
      | Except.error e => (inst, r.trace, Except.error e)
      | Except.ok all =>
        if r.used then (inst, r.trace, Except.ok all)
        else (condRemoveI inst NodeSetIPReservationReadyCondition, r.trace, Except.ok all)

/-- The readiness scan of `EnsureIPSets` (ipam.go lines 51-59): walk the
fetched IPSets and report false at the first member whose Ready condition
is not confirmed True. -/
def scanIPSetsReady : List (String × IPSet) → Bool
  | [] => true
  | s :: rest =>
    if !(condIsTrue s.2.status.conditions ReadyCondition) then false
    else scanIPSetsReady rest

/-- Result of `EnsureIPSets`: updated parent, upsert trace (ghost), the
returned map (`none` models the Go nil map), the boolean, and the error. -/
structure IPSetsResult where
  inst : Instance
  trace : List String
  sets : Option (List (String × IPSet))
  isOk : Bool
  err : Option Err
deriving DecidableEq

/-- `EnsureIPSets` (ipam.go lines 35-64): run `reserveIPs`; on error mark
the reservation condition Error and surface the error; on an empty map
return success; otherwise scan readiness, marking the condition Waiting at
any member not confirmed True, else marking it True and returning the map. -/
def EnsureIPSets (env : IpamEnv) (inst : Instance) : IPSetsResult :=
  match reserveIPs env inst with
  | (inst1, tr, Except.error e) =>
    ⟨markFalseC inst1 NodeSetIPReservationReadyCondition ErrorReason SeverityError
        NodeSetIPReservationReadyErrorMessage, tr, none, false, some e⟩
  | (inst1, tr, Except.ok all) =>
    if all.length = 0 then ⟨inst1, tr, none, true, none⟩
    else if scanIPSetsReady all then
      ⟨markTrueC inst1 NodeSetIPReservationReadyCondition
          NodeSetIPReservationReadyMessage, tr, some all, true, none⟩
    else
      ⟨markFalseC inst1 NodeSetIPReservationReadyCondition RequestedReason SeverityInfo
          NodeSetIPReservationReadyWaitingMessage, tr, none, false, none⟩

/-- Embeds `strings.Split(hostName, ".")[0]` (ipam.go line 101): the portion
of the hostname preceding the first domain separator (the whole string when
no separator occurs). -/
def shortNameOf (s : String) : String :=
  String.mk (s.data.takeWhile (fun c => !(c == '.')))

/-- Embeds `strings.Join([]string{shortName, res.DNSDomain}, ".")`
(ipam.go line 114). -/
def joinDot (a b : String) : String :=
  a ++ "." ++ b

/-- Embeds `strings.ToLower` as applied to network names
(ipam.go line 113). -/
def lowerString (s : String) : String :=
  String.mk (s.data.map Char.toLower)

/-- Modelled from the spec: `dataplanev1.NodeHostNameIsFQDN` is declared in
the api package, which is not in src; per the spec it tests whether the
declared hostname is already fully qualified, i.e. carries a domain
separator. -/
def NodeHostNameIsFQDN (s : String) : Bool :=
  s.data.any (fun c => c == '.')

/-- One DNS host record: `infranetworkv1.DNSHost` `{IP, Hostnames}`. -/
structure DNSHost where
  ip : String
  hostnames : List String
deriving DecidableEq

/-- A DNSMasq service resource, at the boundary: its readiness and the two
address slices of its status (nil-able). -/
structure DNSMasq where
  isReady : Bool
  dnsClusterAddresses : Option (List String)
  dnsAddresses : Option (List String)
deriving DecidableEq

/-- The DNSData resource as read back after persistence: its host list and
its readiness (`dnsData.IsReady()` at the boundary). -/
structure DNSData where
  hosts : List DNSHost
  isReady : Bool
deriving DecidableEq

/-- The `DataplaneDNSData` struct (ipam.go lines 67-80); nested Go maps are
association lists, nil-able slices are `Option`. -/
structure DataplaneDNSData where
  serverAddresses : Option (List String)
  clusterAddresses : Option (List String)
  ctlplaneSearchDomain : String
  ready : Bool
  hostnames : List (String × List (String × String))
  allIPs : List (String × List (String × String))
deriving DecidableEq

/-- The zero value of `DataplaneDNSData`, as a freshly declared struct. -/
def dnsZero : DataplaneDNSData :=
  ⟨none, none, "", false, [], []⟩

/-- External-store boundary for the DNS pipeline: the List call on DNSMasq
resources, the CreateOrPatch upsert of the DNSData resource (given the host
records it writes), and the readback Get of the DNSData resource. -/
structure DnsEnv where
  listDNSMasqs : Except Err (List DNSMasq)
  upsertDNSData : List DNSHost → Except Err Unit
  getDNSData : Except Err DNSData

/-- `CheckDNSService` (ipam.go lines 289-314): a List error surfaces with
readiness false; zero DNSMasq resources yield readiness true with addresses
untouched; a first resource that is not ready yields readiness false;
otherwise the first resource's addresses are extracted and readiness is
true. -/
def CheckDNSService (env : DnsEnv) (dns : DataplaneDNSData) :
    DataplaneDNSData × Option Err :=
  match env.listDNSMasqs with
  | Except.error e => ({ dns with ready := false }, some e)
  | Except.ok items =>
    match items with
    | [] => ({ dns with ready := true }, none)
    | first :: _ =>
      if !first.isReady then ({ dns with ready := false }, none)
      else
        ({ dns with clusterAddresses := first.dnsClusterAddresses,
                    serverAddresses := first.dnsAddresses,
                    ready := true }, none)

/-- Nested-map assignment `m[k1][k2] = v` over association lists. -/
def mapInsert2 (m : List (String × List (String × String))) (k1 k2 v : String) :
    List (String × List (String × String)) :=
  alistInsert m k1 (alistInsert ((alistLookup m k1).getD []) k2 v)

/-- State threaded through the record-building loop of
`createOrPatchDNSData`: the accumulated flat DNS records, the local
`ctlplaneSearchDomain` variable of the Go function, and the receiver
struct. -/
structure BuildState where
  records : List DNSHost
  ctl : String
  dns : DataplaneDNSData

/-- The per-reservation body of `createOrPatchDNSData` (ipam.go lines
109-131): compute the lowered network name and the FQDN; register the FQDN
as an alias when it differs from the declared hostname; when the hostname
is already fully qualified and the network is the control-plane network,
additionally register the hostname itself; record the address; append the
DNSHost record; and, guarded by the local `ctlplaneSearchDomain` variable
being empty (the Go code never assigns that local), store the reservation's
DNS domain as the receiver's control-plane search domain. -/
def dnsStepRes (hostName shortName : String) (st : BuildState) (res : Reservation) :
    BuildState :=
  let netLower := lowerString res.network
  let fqdnName := joinDot shortName res.dnsDomain
  let fqdnNames0 : List String := []
  let step1 :=
    if fqdnName ≠ hostName then
      (fqdnNames0 ++ [fqdnName], mapInsert2 st.dns.hostnames hostName netLower fqdnName)
    else (fqdnNames0, st.dns.hostnames)
  let step2 :=
    if NodeHostNameIsFQDN hostName && (netLower == CtlPlaneNetwork) then
      (step1.1 ++ [hostName], mapInsert2 step1.2 hostName netLower hostName)
    else step1
  let allIPs1 := mapInsert2 st.dns.allIPs hostName netLower res.address
  let dns1 := { st.dns with hostnames := step2.2, allIPs := allIPs1 }
  let dns2 :=
    if (netLower == CtlPlaneNetwork) && (st.ctl == "") then
      { dns1 with ctlplaneSearchDomain := res.dnsDomain }
    else dns1
  ⟨st.records ++ [⟨res.address, step2.1⟩], st.ctl, dns2⟩

/-- The per-node body of `createOrPatchDNSData` (ipam.go lines 93-134):
initialise the node's entries in the receiver's maps, derive the short
name, compute the effective networks, and when the node participates and an
IPSet exists for its hostname, fold the per-reservation body over the
IPSet's reservations. -/
def dnsNodeStep (tmplNets : List String) (allIPSets : List (String × IPSet))
    (st : BuildState) (node : NodeSpec) : BuildState :=
  let hostName := node.hostName
  let dns0 := { st.dns with hostnames := alistInsert st.dns.hostnames hostName [],
                            allIPs := alistInsert st.dns.allIPs hostName [] }
  let st0 : BuildState := ⟨st.records, st.ctl, dns0⟩
  let shortName := shortNameOf hostName
  let nets := effectiveNets tmplNets node
  if nets.length > 0 then
    match alistLookup allIPSets hostName with
    | some ipSet => ipSet.status.reservation.foldl (dnsStepRes hostName shortName) st0
    | none => st0
  else st0

/-- `createOrPatchDNSData` (ipam.go lines 83-156): reset the receiver's
maps, fold the per-node body over the nodes in their fixed order, then
upsert the DNSData resource carrying the accumulated records; an upsert
error surfaces unmodified (receiver mutations persist either way). -/
def createOrPatchDNSData (env : DnsEnv) (dns : DataplaneDNSData) (inst : Instance)
    (allIPSets : List (String × IPSet)) : DataplaneDNSData × Option Err :=
  let st0 : BuildState := ⟨[], "", { dns with hostnames := [], allIPs := [] }⟩
  let st := inst.spec.nodes.foldl (dnsNodeStep inst.spec.nodeTemplate.networks allIPSets) st0
  match env.upsertDNSData st.records with
  | Except.error e => (st.dns, some e)
  | Except.ok _ => (st.dns, none)

/-- Result of `EnsureDNSData`: receiver state, updated parent, whether the
record builder (`createOrPatchDNSData`) was invoked this pass (ghost), and
the returned error. -/
structure DnsPassResult where
  dns : DataplaneDNSData
  inst : Instance
  builderRan : Bool
  err : Option Err

/-- `EnsureDNSData` (ipam.go lines 159-227): check the DNS service; when
the check errs, reports not ready, or left nil cluster addresses, mark /
remove the DNS condition accordingly and return before building anything;
otherwise build and persist the DNSData, read it back, and mark the DNS
condition Waiting or True according to the readback's readiness. -/
def EnsureDNSData (env : DnsEnv) (dns0 : DataplaneDNSData) (inst : Instance)
    (allIPSets : List (String × IPSet)) : DnsPassResult :=
  let checked := CheckDNSService env dns0
  let dns1 := checked.1
  let cerr := checked.2
  if cerr.isSome || !dns1.ready || dns1.clusterAddresses.isNone then
    let inst1 :=
      if cerr.isSome then
        markFalseC inst NodeSetDNSDataReadyCondition ErrorReason SeverityError
          NodeSetDNSDataReadyErrorMessage
      else inst
    let inst2 :=
      if !dns1.ready then
        markFalseC inst1 NodeSetDNSDataReadyCondition RequestedReason SeverityInfo
          NodeSetDNSDataReadyWaitingMessage
      else inst1
    let inst3 :=
      if dns1.clusterAddresses.isNone then condRemoveI inst2 NodeSetDNSDataReadyCondition
      else inst2
    ⟨dns1, inst3, false, cerr⟩
  else
    match createOrPatchDNSData env dns1 inst allIPSets with
    | (dns2, some e) =>
      ⟨dns2, markFalseC inst NodeSetDNSDataReadyCondition ErrorReason SeverityError
          NodeSetDNSDataReadyErrorMessage, true, some e⟩
    | (dns2, none) =>
      match env.getDNSData with
      | Except.error e =>
        ⟨dns2, markFalseC inst NodeSetDNSDataReadyCondition ErrorReason SeverityError
            NodeSetDNSDataReadyErrorMessage, true, some e⟩
      | Except.ok dd =>
        if !dd.isReady then
          ⟨{ dns2 with ready := false },
            markFalseC inst NodeSetDNSDataReadyCondition RequestedReason SeverityInfo
              NodeSetDNSDataReadyWaitingMessage, true, none⟩
        else
          ⟨{ dns2 with ready := true },
            markTrueC inst NodeSetDNSDataReadyCondition NodeSetDNSDataReadyMessage,
            true, none⟩

/-! Concrete inputs used by counterexamples and witnesses. -/

/-- A parent object with two nodes whose IPSets both carry a control-plane
reservation, with distinct DNS domains. -/
def instC2 : Instance :=
  ⟨"nodeset1", "osp", ⟨[⟨"edpm-0", ["ctlplane"]⟩, ⟨"edpm-1", ["ctlplane"]⟩], ⟨[]⟩⟩, []⟩

/-- IPSets for `instC2`: the first node's control-plane domain is `domA`,
the second node's is `domB`. -/
def ipSetsC2 : List (String × IPSet) :=
  [("edpm-0", ⟨"edpm-0", ["ctlplane"], ⟨[⟨"ctlplane", "192.168.122.10", "domA"⟩], []⟩⟩),
   ("edpm-1", ⟨"edpm-1", ["ctlplane"], ⟨[⟨"ctlplane", "192.168.122.11", "domB"⟩], []⟩⟩)]

/-- A DNS environment whose single DNSMasq is ready with addresses, and
whose persistence calls succeed. -/
def envC2 : DnsEnv :=
  ⟨Except.ok [⟨true, some ["172.19.0.80"], some ["192.168.122.80"]⟩],
   fun _ => Except.ok (), Except.ok ⟨[], true⟩⟩

/-- A DNS environment with exactly one DNSMasq resource that is not ready. -/
def envC3 : DnsEnv :=
  ⟨Except.ok [⟨false, none, none⟩], fun _ => Except.ok (), Except.ok ⟨[], true⟩⟩

/-- A DNS environment with zero DNSMasq resources. -/
def envC6 : DnsEnv :=
  ⟨Except.ok [], fun _ => Except.ok (), Except.ok ⟨[], true⟩⟩

/-- The node of the spec's worked example: hostname `edpm-0`, one
control-plane attachment. -/
def exampleNode : NodeSpec :=
  ⟨"edpm-0", ["ctlplane"]⟩

/-- The reservation of the spec's worked example. -/
def exampleRes : Reservation :=
  ⟨"ctlplane", "172.20.0.10", "ctlplane.example.com"⟩

/-- The IPSet carrying the worked example's reservation. -/
def exampleIPSet : IPSet :=
  ⟨"edpm-0", ["ctlplane"], ⟨[exampleRes], []⟩⟩

/-- The IPSet map of the worked example. -/
def exampleIPSets : List (String × IPSet) :=
  [("edpm-0", exampleIPSet)]

/-- A node whose hostname is already fully qualified on a
non-control-plane network, so that the derived FQDN equals the hostname. -/
def fqdnNode : NodeSpec :=
  ⟨"edpm-0.internalapi.example.com", ["internalapi"]⟩

/-- The reservation whose derived FQDN equals `fqdnNode`'s hostname. -/
def fqdnRes : Reservation :=
  ⟨"internalapi", "172.17.0.10", "internalapi.example.com"⟩

/-- The IPSet map for `fqdnNode`. -/
def fqdnIPSets : List (String × IPSet) :=
  [("edpm-0.internalapi.example.com",
    ⟨"edpm-0.internalapi.example.com", ["internalapi"], ⟨[fqdnRes], []⟩⟩)]

/-- A single NetConfig resource, for environments where IPAM is in use. -/
def ncsW : List NetConfig :=
  [⟨"netconfig"⟩]

/-- An IPSet whose Ready condition is confirmed True. -/
def ipsetReadyW : IPSet :=
  ⟨"n0", ["neta"], ⟨[], [⟨"Ready", CondStatus.ctrue, "Ready", "", "ok"⟩]⟩⟩

/-- An IPSet whose Ready condition is absent (not confirmed True). -/
def ipsetUnsetW : IPSet :=
  ⟨"n0", ["neta"], ⟨[], []⟩⟩

/-- Environment whose IPSet upserts always succeed with a ready IPSet. -/
def envW1 : IpamEnv :=
  ⟨Except.ok ncsW, fun _ _ => Except.ok ipsetReadyW⟩

/-- A parent object with one node attached to one network. -/
def instW1 : Instance :=
  ⟨"nodeset1", "osp", ⟨[⟨"n0", ["neta"]⟩], ⟨[]⟩⟩, []⟩

/-- A parent object whose only node has no attachments and whose template
has none either. -/
def instW7 : Instance :=
  ⟨"nodeset1", "osp", ⟨[⟨"n0", []⟩], ⟨[]⟩⟩, []⟩

/-- Environment for the no-attachments witness: a NetConfig exists but any
upsert would fail (none must happen). -/
def envW7 : IpamEnv :=
  ⟨Except.ok ncsW, fun _ _ => Except.error ⟨"must not be called"⟩⟩

/-- Environment for the fail-fast witness: the upsert succeeds for `n0` and
fails for `n1`. -/
def envW8 : IpamEnv :=
  ⟨Except.ok ncsW,
   fun name _ => if name == "n1" then Except.error ⟨"patch failed"⟩ else Except.ok ipsetReadyW⟩

/-- A parent object with two participating nodes `n0`, `n1`. -/
def instW8 : Instance :=
  ⟨"nodeset1", "osp", ⟨[⟨"n0", ["neta"]⟩, ⟨"n1", ["neta"]⟩], ⟨[]⟩⟩, []⟩

/-- A parent object whose DNS condition is currently in the Waiting state. -/
def instW9 : Instance :=
  ⟨"nodeset1", "osp", ⟨[⟨"edpm-0", ["ctlplane"]⟩], ⟨[]⟩⟩,
   [⟨"NodeSetDNSDataReady", CondStatus.cfalse, "Requested", "Info", "DNSData waiting"⟩]⟩

/-! Helper lemmas about conditions, the readiness scan and the upsert
loop. -/

/-- Looking up the type just upserted yields the upserted condition. -/
theorem condGet_condSet_self (l : List Cond) (c : Cond) :
    condGet (condSet l c) c.ctype = some c := by
  induction l with
  | nil => simp [condSet, condGet]
  | cons x rest ih =>
    by_cases h : x.ctype == c.ctype
    · simp [condSet, condGet, h]
    · simp [condSet, condGet, h, ih]

/-- Looking up the type just removed yields nothing. -/
theorem condGet_condRemove_self (l : List Cond) (t : String) :
    condGet (condRemove l t) t = none := by
  induction l with
  | nil => simp [condRemove, condGet]
  | cons x rest ih =>
    by_cases h : x.ctype == t
    · simp [condRemove, h, ih]
    · simp [condRemove, condGet, h, ih]

/-- After `MarkTrue`, the condition reads as confirmed True. -/
theorem condIsTrue_markTrueC (inst : Instance) (t m : String) :
    condIsTrue (markTrueC inst t m).conditions t = true := by
  have h := condGet_condSet_self inst.conditions ⟨t, CondStatus.ctrue, "Ready", "", m⟩
  simp [condIsTrue, markTrueC, h]

/-- After `MarkFalse` with the Requested reason, the condition reads as
Waiting. -/
theorem condIsWaiting_markFalseC (inst : Instance) (t m : String) :
    condIsWaiting (markFalseC inst t RequestedReason SeverityInfo m).conditions t = true := by
  have h := condGet_condSet_self inst.conditions
    ⟨t, CondStatus.cfalse, RequestedReason, SeverityInfo, m⟩
  simp only [RequestedReason, SeverityInfo] at h
  simp [condIsWaiting, markFalseC, RequestedReason, SeverityInfo, h]

/-- After `MarkFalse` with the Error reason, the condition reads as Error. -/
theorem condIsError_markFalseC (inst : Instance) (t m : String) :
    condIsError (markFalseC inst t ErrorReason SeverityError m).conditions t = true := by
  have h := condGet_condSet_self inst.conditions
    ⟨t, CondStatus.cfalse, ErrorReason, SeverityError, m⟩
  simp only [ErrorReason, SeverityError] at h
  simp [condIsError, markFalseC, ErrorReason, SeverityError, h]

/-- The readiness scan of `EnsureIPSets` agrees with `List.all`. -/
theorem scanIPSetsReady_eq_all (l : List (String × IPSet)) :
    scanIPSetsReady l = l.all (fun s => condIsTrue s.2.status.conditions ReadyCondition) := by
  induction l with
  | nil => rfl
  | cons s rest ih =>
    by_cases h : condIsTrue s.2.status.conditions ReadyCondition
    · simp [scanIPSetsReady, h, ih]
    · simp [scanIPSetsReady, h]

/-- `List.all` is invariant under permutation. -/
theorem all_eq_of_perm {α : Type} (p : α → Bool) {l l' : List α} (h : l.Perm l') :
    l.all p = l'.all p := by
  induction h with
  | nil => rfl
  | cons x _ ih => simp [List.all_cons, ih]
  | swap x y l => simp [List.all_cons, Bool.and_left_comm]
  | trans _ _ ih1 ih2 => exact ih1.trans ih2

/-- When no node has an effective attachment, the upsert loop performs no
upsert and returns its accumulator. -/
theorem reserveIPsLoop_no_participants (env : IpamEnv) (tmpl : List String)
    (nodes : List NodeSpec) (acc : List (String × IPSet))
    (h : ∀ n ∈ nodes, effectiveNets tmpl n = []) :
    reserveIPsLoop env tmpl nodes acc = ⟨[], false, Except.ok acc⟩ := by
  induction nodes with
  | nil => rfl
  | cons n rest ih =>
    have hn : effectiveNets tmpl n = [] := h n (by simp)
    simp only [reserveIPsLoop, hn, if_pos rfl]
    exact ih (fun m hm => h m (by simp [hm]))

/-- Fail-fast behaviour of the upsert loop: when the participating nodes
split as `pre ++ node :: post`, every upsert over `pre` succeeds and the
upsert of `node` fails with `e`, the loop's trace is exactly the hostnames
of `pre` followed by `node`'s, and its result is the error `e` unmodified. -/
theorem reserveIPsLoop_failfast (env : IpamEnv) (tmpl : List String)
    (nodes : List NodeSpec) (acc : List (String × IPSet))
    (pre : List NodeSpec) (node : NodeSpec) (post : List NodeSpec) (e : Err)
    (hsplit : participants tmpl nodes = pre ++ node :: post)
    (hok : ∀ m ∈ pre, ∃ s, env.upsertIPSet m.hostName (effectiveNets tmpl m) = Except.ok s)
    (hfail : env.upsertIPSet node.hostName (effectiveNets tmpl node) = Except.error e) :
    (reserveIPsLoop env tmpl nodes acc).trace
        = pre.map (fun m => m.hostName) ++ [node.hostName]
    ∧ (reserveIPsLoop env tmpl nodes acc).res = Except.error e := by
  induction nodes generalizing acc pre with
  | nil =>
    exfalso
    simp only [participants, List.filter_nil] at hsplit
    exact (List.append_ne_nil_of_right_ne_nil pre (by simp)) hsplit.symm
  | cons n rest ih =>
    by_cases hn : effectiveNets tmpl n = []
    · have hrest : participants tmpl rest = pre ++ node :: post := by
        simpa [participants, List.filter_cons, hn] using hsplit
      simp only [reserveIPsLoop, hn, if_pos rfl]
      exact ih acc pre hrest hok
    · have hcons : n :: participants tmpl rest = pre ++ node :: post := by
        simpa [participants, List.filter_cons, hn] using hsplit
      cases pre with
      | nil =>
        simp only [List.nil_append, List.cons.injEq] at hcons
        obtain ⟨hn', hpost⟩ := hcons
        subst hn'
        simp [reserveIPsLoop, hn, hfail]
      | cons p pre' =>
        simp only [List.cons_append, List.cons.injEq] at hcons
        obtain ⟨hp, hrest⟩ := hcons
        subst hp
        obtain ⟨s, hs⟩ := hok n (by simp)
        have hrec := ih (alistInsert acc n.hostName s) pre' hrest
          (fun m hm => hok m (by simp [hm]))
        simp [reserveIPsLoop, hn, hs, hrec.1, hrec.2]

/-- C1: for every non-empty set of IPSet reservation resources fetched
after synchronization, `EnsureIPSets` reports aggregate readiness Ready
(condition marked True, full IPSet map returned) if and only if every
member's Ready condition is confirmed True; any member not confirmed True
yields the Waiting outcome; and the boolean outcome of the readiness scan
is independent of the scan order over the set. -/
theorem EnsureIPSets_ready_iff_all_members
    (env : IpamEnv) (inst inst1 : Instance) (tr : List String)
    (all : List (String × IPSet))
    (hres : reserveIPs env inst = (inst1, tr, Except.ok all))
    (hne : all ≠ []) :
    (((EnsureIPSets env inst).sets = some all
      ∧ (EnsureIPSets env inst).isOk = true
      ∧ condIsTrue (EnsureIPSets env inst).inst.conditions
          NodeSetIPReservationReadyCondition = true)
      ↔ all.all (fun s => condIsTrue s.2.status.conditions ReadyCondition) = true)
    ∧ (all.all (fun s => condIsTrue s.2.status.conditions ReadyCondition) = false →
        (EnsureIPSets env inst).sets = none
        ∧ (EnsureIPSets env inst).isOk = false
        ∧ condIsWaiting (EnsureIPSets env inst).inst.conditions
            NodeSetIPReservationReadyCondition = true)
    ∧ (∀ other : List (String × IPSet), all.Perm other →
        scanIPSetsReady all = scanIPSetsReady other) := by
  have hlen : ¬ all.length = 0 := fun h => hne (List.length_eq_zero.mp h)
  have hE : EnsureIPSets env inst =
      (if all.length = 0 then ⟨inst1, tr, none, true, none⟩
       else if scanIPSetsReady all then
         ⟨markTrueC inst1 NodeSetIPReservationReadyCondition
            NodeSetIPReservationReadyMessage, tr, some all, true, none⟩
       else
         ⟨markFalseC inst1 NodeSetIPReservationReadyCondition RequestedReason SeverityInfo
            NodeSetIPReservationReadyWaitingMessage, tr, none, false, none⟩) := by
    unfold EnsureIPSets
    rw [hres]
  rw [hE, if_neg hlen]
  by_cases hscan : scanIPSetsReady all = true
  · rw [if_pos hscan]
    refine ⟨⟨fun _ => ?_, fun _ => ⟨rfl, rfl, condIsTrue_markTrueC inst1 _ _⟩⟩, ?_, ?_⟩
    · rw [← scanIPSetsReady_eq_all]
      exact hscan
    · intro hallf
      rw [← scanIPSetsReady_eq_all, hscan] at hallf
      exact Bool.noConfusion hallf
    · intro other hperm
      rw [scanIPSetsReady_eq_all, scanIPSetsReady_eq_all]
      exact all_eq_of_perm _ hperm
  · rw [if_neg hscan]
    have hscanf : scanIPSetsReady all = false := by simpa using hscan
    refine ⟨⟨fun hcontra => ?_, fun halltrue => ?_⟩, ?_, ?_⟩
    · exact Option.noConfusion hcontra.1
    · rw [← scanIPSetsReady_eq_all, hscanf] at halltrue
      exact Bool.noConfusion halltrue
    · intro _
      exact ⟨rfl, rfl, condIsWaiting_markFalseC inst1 _ _⟩
    · intro other hperm
      rw [scanIPSetsReady_eq_all, scanIPSetsReady_eq_all]
      exact all_eq_of_perm _ hperm

/-- C1 witness: at a concrete environment with one participating node whose
IPSet is ready, the hypotheses of `EnsureIPSets_ready_iff_all_members` hold
and the full map is returned. -/
theorem EnsureIPSets_ready_iff_all_members_witness :
    reserveIPs envW1 instW1 = (instW1, ["n0"], Except.ok [("n0", ipsetReadyW)])
    ∧ [("n0", ipsetReadyW)] ≠ ([] : List (String × IPSet))
    ∧ (EnsureIPSets envW1 instW1).sets = some [("n0", ipsetReadyW)] :=
  ⟨rfl, by decide,
   ((EnsureIPSets_ready_iff_all_members envW1 instW1 instW1 ["n0"] [("n0", ipsetReadyW)]
      rfl (by decide)).1.mpr (by decide)).1⟩

/-- C7: for every node-set spec in which every node's attachment list and
the template's are empty, the pass creates zero IPSet resources (empty
upsert trace), the reservation condition ends removed (NotApplicable), and
`EnsureIPSets` returns success with no map rather than Waiting or Error. -/
theorem EnsureIPSets_no_attachments_not_applicable
    (env : IpamEnv) (inst : Instance) (ncs : List NetConfig)
    (hl : env.listNetConfigs = Except.ok ncs)
    (htmpl : inst.spec.nodeTemplate.networks = [])
    (hnodes : ∀ n ∈ inst.spec.nodes, n.networks = []) :
    (EnsureIPSets env inst).trace = []
    ∧ (EnsureIPSets env inst).sets = none
    ∧ (EnsureIPSets env inst).isOk = true
    ∧ (EnsureIPSets env inst).err = none
    ∧ condGet (EnsureIPSets env inst).inst.conditions
        NodeSetIPReservationReadyCondition = none := by
  have heff : ∀ n ∈ inst.spec.nodes,
      effectiveNets inst.spec.nodeTemplate.networks n = [] := by
    intro n hn
    simp [effectiveNets, hnodes n hn, htmpl]
  have hloop := reserveIPsLoop_no_participants env inst.spec.nodeTemplate.networks
      inst.spec.nodes [] heff
  have hres : reserveIPs env inst =
      (condRemoveI inst NodeSetIPReservationReadyCondition, [], Except.ok []) := by
    unfold reserveIPs
    rw [hl]
    by_cases hn : ncs.length = 0
    · simp [hn]
    · simp [hn, hloop]
  have hE : EnsureIPSets env inst =
      ⟨condRemoveI inst NodeSetIPReservationReadyCondition, [], none, true, none⟩ := by
    unfold EnsureIPSets
    rw [hres]
    rfl
  rw [hE]
  exact ⟨rfl, rfl, rfl, rfl,
    condGet_condRemove_self inst.conditions NodeSetIPReservationReadyCondition⟩

/-- C7 witness: concrete node set with one node, no attachments anywhere. -/
theorem EnsureIPSets_no_attachments_not_applicable_witness :
    envW7.listNetConfigs = Except.ok ncsW
    ∧ instW7.spec.nodeTemplate.networks = []
    ∧ (EnsureIPSets envW7 instW7).trace = []
    ∧ (EnsureIPSets envW7 instW7).isOk = true :=
  ⟨rfl, rfl,
   (EnsureIPSets_no_attachments_not_applicable envW7 instW7 ncsW rfl rfl (by decide)).1,
   (EnsureIPSets_no_attachments_not_applicable envW7 instW7 ncsW rfl rfl (by decide)).2.2.1⟩

/-- C8: when the upsert of some participating node's IPSet fails,
`reserveIPs` aborts immediately: the upsert trace is exactly the earlier
participating nodes followed by the failing one (no later node is upserted,
earlier upserts are left as-is), the error value is returned unmodified
through `EnsureIPSets`, and the reservation condition is marked Error. -/
theorem reserveIPs_failfast_error_propagation
    (env : IpamEnv) (inst : Instance) (ncs : List NetConfig)
    (pre : List NodeSpec) (node : NodeSpec) (post : List NodeSpec) (e : Err)
    (hl : env.listNetConfigs = Except.ok ncs) (hncs : ncs ≠ [])
    (hsplit : participants inst.spec.nodeTemplate.networks inst.spec.nodes
        = pre ++ node :: post)
    (hok : ∀ m ∈ pre, ∃ s,
        env.upsertIPSet m.hostName (effectiveNets inst.spec.nodeTemplate.networks m)
          = Except.ok s)
    (hfail : env.upsertIPSet node.hostName
        (effectiveNets inst.spec.nodeTemplate.networks node) = Except.error e) :
    (reserveIPs env inst).2.1 = pre.map (fun m => m.hostName) ++ [node.hostName]
    ∧ (reserveIPs env inst).2.2 = Except.error e
    ∧ (EnsureIPSets env inst).err = some e
    ∧ (EnsureIPSets env inst).sets = none
    ∧ (EnsureIPSets env inst).isOk = false
    ∧ condIsError (EnsureIPSets env inst).inst.conditions
        NodeSetIPReservationReadyCondition = true := by
  obtain ⟨htr, hresl⟩ := reserveIPsLoop_failfast env inst.spec.nodeTemplate.networks
    inst.spec.nodes [] pre node post e hsplit hok hfail
  have hlen : ¬ ncs.length = 0 := fun h => hncs (List.length_eq_zero.mp h)
  have hres : reserveIPs env inst =
      (inst, pre.map (fun m => m.hostName) ++ [node.hostName], Except.error e) := by
    unfold reserveIPs
    rw [hl]
    simp [hlen, hresl, htr]
  have hE : EnsureIPSets env inst =
      ⟨markFalseC inst NodeSetIPReservationReadyCondition ErrorReason SeverityError
          NodeSetIPReservationReadyErrorMessage,
        pre.map (fun m => m.hostName) ++ [node.hostName], none, false, some e⟩ := by
    unfold EnsureIPSets
    rw [hres]
  rw [hres, hE]
  exact ⟨rfl, rfl, rfl, rfl, rfl, condIsError_markFalseC inst _ _⟩

/-- C8 witness: two participating nodes; the first upsert succeeds, the
second fails; the trace stops at the failing node and the error surfaces. -/
theorem reserveIPs_failfast_error_propagation_witness :
    participants instW8.spec.nodeTemplate.networks instW8.spec.nodes
      = [(⟨"n0", ["neta"]⟩ : NodeSpec)] ++ (⟨"n1", ["neta"]⟩ : NodeSpec) :: []
    ∧ (reserveIPs envW8 instW8).2.1 = ["n0", "n1"]
    ∧ (EnsureIPSets envW8 instW8).err = some ⟨"patch failed"⟩ :=
  ⟨by decide,
   (reserveIPs_failfast_error_propagation envW8 instW8 ncsW
      [⟨"n0", ["neta"]⟩] ⟨"n1", ["neta"]⟩ [] ⟨"patch failed"⟩ rfl (by decide) (by decide)
      (by
        intro m hm
        simp only [List.mem_singleton] at hm
        subst hm
        exact ⟨ipsetReadyW, rfl⟩)
      rfl).1,
   (reserveIPs_failfast_error_propagation envW8 instW8 ncsW
      [⟨"n0", ["neta"]⟩] ⟨"n1", ["neta"]⟩ [] ⟨"patch failed"⟩ rfl (by decide) (by decide)
      (by
        intro m hm
        simp only [List.mem_singleton] at hm
        subst hm
        exact ⟨ipsetReadyW, rfl⟩)
      rfl).2.2.1⟩

/-- C2: the claim says the cluster search domain is the dnsDomain of the
FIRST control-plane-network reservation encountered and later ones are
ignored; the code's guard reads a local variable that is never assigned, so
every control-plane reservation overwrites the receiver's search domain.
At the concrete input below the nodes are iterated as `edpm-0` (domain
`domA`) then `edpm-1` (domain `domB`), and the recorded search domain is
`domB` — the last control-plane domain, not the first. -/
theorem createOrPatchDNSData_search_domain_last_wins :
    instC2.spec.nodes.map (fun n => n.hostName) = ["edpm-0", "edpm-1"]
    ∧ alistLookup ipSetsC2 "edpm-0"
        = some ⟨"edpm-0", ["ctlplane"], ⟨[⟨"ctlplane", "192.168.122.10", "domA"⟩], []⟩⟩
    ∧ alistLookup ipSetsC2 "edpm-1"
        = some ⟨"edpm-1", ["ctlplane"], ⟨[⟨"ctlplane", "192.168.122.11", "domB"⟩], []⟩⟩
    ∧ (createOrPatchDNSData envC2 dnsZero instC2 ipSetsC2).1.ctlplaneSearchDomain = "domB"
    ∧ ("domB" : String) ≠ "domA" := by
  exact ⟨by decide, by decide, by decide, by decide, by decide⟩

/-- C3 counterexample: with exactly one DNS service resource that is not
ready, the check returns the waiting outcome (not ready, nil addresses, no
error) and the builder never runs — but the DNS condition does NOT end the
pass in the Waiting state: it has been removed (absent). -/
theorem EnsureDNSData_single_unready_not_waiting_cex :
    CheckDNSService envC3 dnsZero = ({ dnsZero with ready := false }, none)
    ∧ (EnsureDNSData envC3 dnsZero instC2 []).builderRan = false
    ∧ condIsWaiting (EnsureDNSData envC3 dnsZero instC2 []).inst.conditions
        NodeSetDNSDataReadyCondition = false
    ∧ condGet (EnsureDNSData envC3 dnsZero instC2 []).inst.conditions
        NodeSetDNSDataReadyCondition = none := by
  exact ⟨by decide, by decide, by decide, by decide⟩

/-- C3 (amended): with exactly one DNS service resource present and not
ready, the DNS service check returns the Waiting outcome (not ready, nil
addresses, no error) and `createOrPatchDNSData` is never invoked in that
pass; the DNS condition is marked Waiting during the pass but, because the
cluster addresses are nil, it is then removed, so the pass ends with the
DNS condition absent rather than Waiting. -/
theorem EnsureDNSData_single_unready_waits_then_removed
    (env : DnsEnv) (dns0 : DataplaneDNSData) (inst : Instance)
    (ipsets : List (String × IPSet)) (m : DNSMasq)
    (hl : env.listDNSMasqs = Except.ok [m]) (hm : m.isReady = false)
    (hca : dns0.clusterAddresses = none) :
    (CheckDNSService env dns0).1.ready = false
    ∧ (CheckDNSService env dns0).1.clusterAddresses = none
    ∧ (CheckDNSService env dns0).2 = none
    ∧ (EnsureDNSData env dns0 inst ipsets).builderRan = false
    ∧ (EnsureDNSData env dns0 inst ipsets).err = none
    ∧ condGet (EnsureDNSData env dns0 inst ipsets).inst.conditions
        NodeSetDNSDataReadyCondition = none := by
  have hchk : CheckDNSService env dns0 = ({ dns0 with ready := false }, none) := by
    simp [CheckDNSService, hl, hm]
  refine ⟨by rw [hchk], by rw [hchk]; exact hca, by rw [hchk], ?_, ?_, ?_⟩
  all_goals
    simp only [EnsureDNSData, hchk]
    simp [hca, condGet_condRemove_self, condRemoveI]

/-- C3 witness for the amended statement, at the concrete input of the
counterexample. -/
theorem EnsureDNSData_single_unready_waits_then_removed_witness :
    envC3.listDNSMasqs = Except.ok [⟨false, none, none⟩]
    ∧ (EnsureDNSData envC3 dnsZero instC2 []).err = none :=
  ⟨rfl, (EnsureDNSData_single_unready_waits_then_removed envC3 dnsZero instC2 []
      ⟨false, none, none⟩ rfl rfl rfl).2.2.2.2.1⟩

/-- C5: the DNS record builder (`createOrPatchDNSData`) runs if and only if
the DNS service check reported no error, readiness true, and non-nil
cluster addresses (the address data the gate consults); whenever the check
errs, reports not-ready, or leaves nil cluster addresses, the pass returns
before any DNS record derivation or persistence. -/
theorem EnsureDNSData_builder_gate (env : DnsEnv) (dns0 : DataplaneDNSData)
    (inst : Instance) (ipsets : List (String × IPSet)) :
    (EnsureDNSData env dns0 inst ipsets).builderRan = true ↔
      ((CheckDNSService env dns0).2 = none
       ∧ (CheckDNSService env dns0).1.ready = true
       ∧ (CheckDNSService env dns0).1.clusterAddresses ≠ none) := by
  simp only [EnsureDNSData]
  by_cases hgate : ((CheckDNSService env dns0).2.isSome
      || !(CheckDNSService env dns0).1.ready
      || (CheckDNSService env dns0).1.clusterAddresses.isNone) = true
  · rw [if_pos hgate]
    simp only [Bool.or_eq_true, Option.isSome_iff_exists, Option.isNone_iff_eq_none,
      Bool.not_eq_true'] at hgate
    constructor
    · intro hfalse
      exact Bool.noConfusion hfalse
    · rintro ⟨h1, h2, h3⟩
      rcases hgate with (⟨x, hx⟩ | h) | h
      · rw [h1] at hx
        exact Option.noConfusion hx
      · rw [h2] at h
        exact Bool.noConfusion h
      · exact absurd h h3
  · rw [if_neg hgate]
    simp only [Bool.or_eq_true, Option.isSome_iff_exists, Option.isNone_iff_eq_none,
      Bool.not_eq_true', not_or] at hgate
    obtain ⟨⟨h1, h2⟩, h3⟩ := hgate
    have h1' : (CheckDNSService env dns0).2 = none := by
      cases hc : (CheckDNSService env dns0).2 with
      | none => rfl
      | some x => exact absurd ⟨x, hc⟩ h1
    have h2' : (CheckDNSService env dns0).1.ready = true := by
      cases hr : (CheckDNSService env dns0).1.ready with
      | false => exact absurd hr h2
      | true => rfl
    constructor
    · intro _
      exact ⟨h1', h2', h3⟩
    · intro _
      split
      · rfl
      · split
        · rfl
        · split <;> rfl

/-- C6: with zero DNS service resources, `CheckDNSService` returns
readiness true with nil server and cluster addresses and no error, and
`EnsureDNSData` ends the pass with the DNS condition removed
(NotApplicable) — neither Error nor Waiting — with no error and without
invoking the record builder. -/
theorem EnsureDNSData_no_dns_service_not_applicable
    (env : DnsEnv) (dns0 : DataplaneDNSData) (inst : Instance)
    (ipsets : List (String × IPSet))
    (hl : env.listDNSMasqs = Except.ok [])
    (hsa : dns0.serverAddresses = none)
    (hca : dns0.clusterAddresses = none) :
    (CheckDNSService env dns0).1.ready = true
    ∧ (CheckDNSService env dns0).1.serverAddresses = none
    ∧ (CheckDNSService env dns0).1.clusterAddresses = none
    ∧ (CheckDNSService env dns0).2 = none
    ∧ (EnsureDNSData env dns0 inst ipsets).err = none
    ∧ (EnsureDNSData env dns0 inst ipsets).builderRan = false
    ∧ condGet (EnsureDNSData env dns0 inst ipsets).inst.conditions
        NodeSetDNSDataReadyCondition = none := by
  have hchk : CheckDNSService env dns0 = ({ dns0 with ready := true }, none) := by
    simp [CheckDNSService, hl]
  refine ⟨by rw [hchk], by rw [hchk]; exact hsa, by rw [hchk]; exact hca, by rw [hchk],
    ?_, ?_, ?_⟩
  all_goals
    simp only [EnsureDNSData, hchk]
    simp [hca, condGet_condRemove_self, condRemoveI]

/-- C6 witness: zero DNSMasq resources, fresh receiver. -/
theorem EnsureDNSData_no_dns_service_not_applicable_witness :
    envC6.listDNSMasqs = Except.ok []
    ∧ condGet (EnsureDNSData envC6 dnsZero instC2 []).inst.conditions
        NodeSetDNSDataReadyCondition = none :=
  ⟨rfl, (EnsureDNSData_no_dns_service_not_applicable envC6 dnsZero instC2 []
      rfl rfl rfl).2.2.2.2.2.2⟩

/-- C9: in a pass of `EnsureDNSData` where all DNS dependencies are ready —
the service check succeeded with readiness true and non-nil cluster
addresses, the derived DNS record set was persisted successfully (the
builder returned no error), and the persisted DNSData resource reads back
ready — the DNS condition, currently Waiting, is marked True (Ready) in
that same pass. -/
theorem EnsureDNSData_persist_success_marks_ready
    (env : DnsEnv) (dns0 : DataplaneDNSData) (inst : Instance)
    (ipsets : List (String × IPSet)) (dns1 : DataplaneDNSData)
    (cas : List String) (dns2 : DataplaneDNSData) (dd : DNSData)
    (hchk : CheckDNSService env dns0 = (dns1, none))
    (hrdy : dns1.ready = true)
    (hca : dns1.clusterAddresses = some cas)
    (hbuild : createOrPatchDNSData env dns1 inst ipsets = (dns2, none))
    (hget : env.getDNSData = Except.ok dd)
    (hdd : dd.isReady = true)
    (_hwait : condIsWaiting inst.conditions NodeSetDNSDataReadyCondition = true) :
    condIsTrue (EnsureDNSData env dns0 inst ipsets).inst.conditions
        NodeSetDNSDataReadyCondition = true
    ∧ (EnsureDNSData env dns0 inst ipsets).dns.ready = true
    ∧ (EnsureDNSData env dns0 inst ipsets).err = none := by
  simp only [EnsureDNSData, hchk]
  simp [hrdy, hca, hbuild, hget, hdd, condIsTrue_markTrueC]

/-- C9 witness: ready service, successful persistence, ready readback,
parent condition currently Waiting. -/
theorem EnsureDNSData_persist_success_marks_ready_witness :
    condIsWaiting instW9.conditions NodeSetDNSDataReadyCondition = true
    ∧ condIsTrue (EnsureDNSData envC2 dnsZero instW9 []).inst.conditions
        NodeSetDNSDataReadyCondition = true :=
  ⟨by decide,
   (EnsureDNSData_persist_success_marks_ready envC2 dnsZero instW9 [] _ ["172.19.0.80"]
      _ _ rfl rfl rfl rfl rfl rfl (by decide)).1⟩

/-- C4: for a participating node with hostname `h` and a single reservation
`{network, address, dnsDomain}`, the builder appends a DNS record carrying
the reservation's address whose alias list contains the derived
FQDN = shortName ++ "." ++ dnsDomain exactly when it differs from `h`, plus
`h` itself exactly when `h` is already fully qualified and the network is
the control-plane network; the alias list never holds duplicates; and at
the spec's worked example (hostname `edpm-0`, reservation
`{ctlplane, 172.20.0.10, ctlplane.example.com}`) the emitted alias is
`edpm-0.ctlplane.example.com`. -/
theorem dnsNodeStep_alias_registration
    (tmplNets : List String) (allIPSets : List (String × IPSet))
    (st : BuildState) (node : NodeSpec) (ipSet : IPSet) (res : Reservation)
    (hnets : effectiveNets tmplNets node ≠ [])
    (hlook : alistLookup allIPSets node.hostName = some ipSet)
    (hres : ipSet.status.reservation = [res]) :
    ((dnsNodeStep tmplNets allIPSets st node).records
      = st.records
        ++ [⟨res.address,
             (if joinDot (shortNameOf node.hostName) res.dnsDomain ≠ node.hostName
              then [joinDot (shortNameOf node.hostName) res.dnsDomain] else [])
             ++ (if NodeHostNameIsFQDN node.hostName
                    && (lowerString res.network == CtlPlaneNetwork)
                 then [node.hostName] else [])⟩])
    ∧ ((if joinDot (shortNameOf node.hostName) res.dnsDomain ≠ node.hostName
        then [joinDot (shortNameOf node.hostName) res.dnsDomain] else [])
       ++ (if NodeHostNameIsFQDN node.hostName
              && (lowerString res.network == CtlPlaneNetwork)
           then [node.hostName] else [])).Nodup
    ∧ (dnsNodeStep ([] : List String) exampleIPSets ⟨[], "", dnsZero⟩ exampleNode).records
        = [⟨"172.20.0.10", ["edpm-0.ctlplane.example.com"]⟩] := by
  have hlen : 0 < (effectiveNets tmplNets node).length := List.length_pos.mpr hnets
  refine ⟨?_, ?_, by decide⟩
  · by_cases h1 : joinDot (shortNameOf node.hostName) res.dnsDomain ≠ node.hostName <;>
    by_cases h2 : (NodeHostNameIsFQDN node.hostName
        && (lowerString res.network == CtlPlaneNetwork)) = true <;>
      simp [dnsNodeStep, dnsStepRes, hlen, hlook, hres, h1, h2]
  · by_cases h1 : joinDot (shortNameOf node.hostName) res.dnsDomain ≠ node.hostName <;>
    by_cases h2 : (NodeHostNameIsFQDN node.hostName
        && (lowerString res.network == CtlPlaneNetwork)) = true <;>
      simp [h1, h2]

/-- C4 witness at the spec's worked example. -/
theorem dnsNodeStep_alias_registration_witness :
    effectiveNets [] exampleNode ≠ []
    ∧ (dnsNodeStep [] exampleIPSets ⟨[], "", dnsZero⟩ exampleNode).records
        = [⟨"172.20.0.10", ["edpm-0.ctlplane.example.com"]⟩] :=
  ⟨by decide,
   (dnsNodeStep_alias_registration [] exampleIPSets ⟨[], "", dnsZero⟩ exampleNode
      exampleIPSet exampleRes (by decide) (by decide) rfl).2.2⟩

/-- C10 (implicit): when a reservation's derived FQDN equals the node's
declared hostname on a non-control-plane network, the builder still
appends a DNS record carrying the reservation's address with an EMPTY
alias list, rather than omitting the record. -/
theorem dnsNodeStep_empty_alias_record_kept
    (tmplNets : List String) (allIPSets : List (String × IPSet))
    (st : BuildState) (node : NodeSpec) (ipSet : IPSet) (res : Reservation)
    (hnets : effectiveNets tmplNets node ≠ [])
    (hlook : alistLookup allIPSets node.hostName = some ipSet)
    (hres : ipSet.status.reservation = [res])
    (hfq : joinDot (shortNameOf node.hostName) res.dnsDomain = node.hostName)
    (hnet : lowerString res.network ≠ CtlPlaneNetwork) :
    (dnsNodeStep tmplNets allIPSets st node).records
      = st.records ++ [⟨res.address, []⟩] := by
  have hlen : 0 < (effectiveNets tmplNets node).length := List.length_pos.mpr hnets
  have hnet' : (lowerString res.network == CtlPlaneNetwork) = false :=
    beq_eq_false_iff_ne.mpr hnet
  simp [dnsNodeStep, dnsStepRes, hlen, hlook, hres, hfq, hnet']

/-- C10 witness: an already-qualified hostname on a non-control-plane
network whose derived FQDN equals the hostname. -/
theorem dnsNodeStep_empty_alias_record_kept_witness :
    joinDot (shortNameOf fqdnNode.hostName) fqdnRes.dnsDomain = fqdnNode.hostName
    ∧ (dnsNodeStep [] fqdnIPSets ⟨[], "", dnsZero⟩ fqdnNode).records
        = [⟨"172.17.0.10", []⟩] :=
  ⟨by decide,
   dnsNodeStep_empty_alias_record_kept [] fqdnIPSets ⟨[], "", dnsZero⟩ fqdnNode
      ⟨"edpm-0.internalapi.example.com", ["internalapi"], ⟨[fqdnRes], []⟩⟩ fqdnRes
      (by decide) (by decide) rfl (by decide) (by decide)⟩

end Ipam
